import Mathlib

/-
Verification of the CUDA hooks capability-interface pattern from
aten/src/ATen/detail/CUDAHooksInterface.h.

The stub implementer CUDAHooksInterface is embedded as a family of
state-passing functions: every virtual method with default body
`return c;` becomes `fun s => (Except.ok c, s)` and every method whose
default body is `AT_ERROR(msg)` becomes `fun s => (Except.error msg, s)`,
over an arbitrary type of observable process state. AT_ERROR throws an
error carrying a human-readable message; we model the raised error by
its message string. Pointer and handle types that the core never
inspects (THCState, cudaStream_t, cusparseHandle_t, cudaDeviceProp,
Generator, Allocator, Context) are embedded as opaque one-constructor
structures.
-/

namespace ATen

/-- Opaque backend state handle (struct THCState, forward declared). -/
structure THCState

/-- Opaque core context handle (at::Context, forward declared). -/
structure Context

/-- Opaque CUDA stream handle (cudaStream_t, forward declared). -/
structure CudaStream

/-- Opaque cuSPARSE handle (cusparseHandle_t, forward declared). -/
structure CusparseHandle

/-- Opaque device property record (struct cudaDeviceProp, forward declared). -/
structure CudaDeviceProp

/-- Opaque generator object (at::Generator). -/
structure Generator

/-- Opaque allocator object (at::Allocator). -/
structure Allocator

namespace CUDAHooksInterface

/-- Stub of initCUDA: AT_ERROR, from CUDAHooksInterface.h lines 64-66. -/
def initCUDA {σ : Type} (s : σ) : Except String THCState × σ :=
  (Except.error "cannot initialize CUDA without ATen_cuda library", s)

/-- Stub of initCUDAGenerator: AT_ERROR, lines 68-70. -/
def initCUDAGenerator {σ : Type} (_ctx : Context) (s : σ) : Except String Generator × σ :=
  (Except.error "cannot initialize CUDA generator without ATen_cuda library", s)

/-- Stub of hasCUDA: returns false, lines 72-74. -/
def hasCUDA {σ : Type} (s : σ) : Except String Bool × σ :=
  (Except.ok false, s)

/-- Stub of hasCuDNN: returns false, lines 76-78. -/
def hasCuDNN {σ : Type} (s : σ) : Except String Bool × σ :=
  (Except.ok false, s)

/-- Stub of getCurrentCUDAStream: AT_ERROR, lines 80-82. -/
def getCurrentCUDAStream {σ : Type} (_st : THCState) (s : σ) : Except String CudaStream × σ :=
  (Except.error "cannot getCurrentCUDAStream() without ATen_cuda library", s)

/-- Stub of getCurrentCUDASparseHandle: AT_ERROR, lines 85-87. -/
def getCurrentCUDASparseHandle {σ : Type} (_st : THCState) (s : σ) :
    Except String CusparseHandle × σ :=
  (Except.error "cannot getCurrentCUDASparseHandle() without ATen_cuda library", s)

/-- Stub of getCurrentCUDAStreamOnDevice: AT_ERROR, lines 90-93. Note that the
message in the source names getCurrentCUDAStream(), not this operation. -/
def getCurrentCUDAStreamOnDevice {σ : Type} (_st : THCState) (_device : Int) (s : σ) :
    Except String CudaStream × σ :=
  (Except.error "cannot getCurrentCUDAStream() without ATen_cuda library", s)

/-- Stub of getCurrentDeviceProperties: AT_ERROR, lines 95-97. -/
def getCurrentDeviceProperties {σ : Type} (_st : THCState) (s : σ) :
    Except String CudaDeviceProp × σ :=
  (Except.error "cannot getCurrentDeviceProperties() without ATen_cuda library", s)

/-- Stub of getDeviceProperties: AT_ERROR, lines 99-102. -/
def getDeviceProperties {σ : Type} (_st : THCState) (_device : Int) (s : σ) :
    Except String CudaDeviceProp × σ :=
  (Except.error "cannot getDeviceProperties() without ATen_cuda library", s)

/-- Stub of current_device: returns -1, lines 104-106. -/
def current_device {σ : Type} (s : σ) : Except String Int × σ :=
  (Except.ok (-1), s)

/-- Stub of newPinnedMemoryAllocator: AT_ERROR, lines 108-110. -/
def newPinnedMemoryAllocator {σ : Type} (s : σ) : Except String Allocator × σ :=
  (Except.error "pinned memory requires CUDA", s)

/-- Stub of registerCUDATypes: AT_ERROR, lines 112-114. -/
def registerCUDATypes {σ : Type} (_ctx : Context) (s : σ) : Except String Unit × σ :=
  (Except.error "cannot registerCUDATypes() without ATen_cuda library", s)

/-- Stub of compiledWithCuDNN: returns false, lines 116-118. -/
def compiledWithCuDNN {σ : Type} (s : σ) : Except String Bool × σ :=
  (Except.ok false, s)

/-- Stub of supportsDilatedConvolutionWithCuDNN: returns false, lines 120-122. -/
def supportsDilatedConvolutionWithCuDNN {σ : Type} (s : σ) : Except String Bool × σ :=
  (Except.ok false, s)

/-- Stub of versionCuDNN: AT_ERROR, lines 124-126. -/
def versionCuDNN {σ : Type} (s : σ) : Except String Int × σ :=
  (Except.error "cannot query cuDNN version without ATen_cuda library", s)

/-- Stub of batchnormMinEpsilonCuDNN: AT_ERROR, lines 128-131. -/
def batchnormMinEpsilonCuDNN {σ : Type} (s : σ) : Except String Float × σ :=
  (Except.error "cannot query batchnormMinEpsilonCuDNN() without ATen_cuda library", s)

/-- Stub of cuFFTGetPlanCacheMaxSize: AT_ERROR, lines 133-135. -/
def cuFFTGetPlanCacheMaxSize {σ : Type} (s : σ) : Except String Int × σ :=
  (Except.error "cannot access cuFFT plan cache without ATen_cuda library", s)

/-- Stub of cuFFTSetPlanCacheMaxSize: AT_ERROR, lines 137-139. -/
def cuFFTSetPlanCacheMaxSize {σ : Type} (_max_size : Int) (s : σ) : Except String Unit × σ :=
  (Except.error "cannot access cuFFT plan cache without ATen_cuda library", s)

/-- Stub of cuFFTGetPlanCacheSize: AT_ERROR, lines 141-143. -/
def cuFFTGetPlanCacheSize {σ : Type} (s : σ) : Except String Int × σ :=
  (Except.error "cannot access cuFFT plan cache without ATen_cuda library", s)

/-- Stub of cuFFTClearPlanCache: AT_ERROR, lines 145-147. -/
def cuFFTClearPlanCache {σ : Type} (s : σ) : Except String Unit × σ :=
  (Except.error "cannot access cuFFT plan cache without ATen_cuda library", s)

/-- Stub of getNumGPUs: returns 0, lines 149-151. -/
def getNumGPUs {σ : Type} (s : σ) : Except String Int × σ :=
  (Except.ok 0, s)

end CUDAHooksInterface

/-- Decides whether the character list pat occurs at the head of s. -/
def charsStartWith : List Char → List Char → Bool
  | _, [] => true
  | [], _ :: _ => false
  | a :: as, b :: bs => a == b && charsStartWith as bs

/-- Decides whether pat occurs as a contiguous sublist of s. -/
def charsContain : List Char → List Char → Bool
  | [], pat => pat.isEmpty
  | a :: as, pat => charsStartWith (a :: as) pat || charsContain as pat

/-- Substring containment on strings, via the character lists. -/
def strContains (s pat : String) : Bool :=
  charsContain s.toList pat.toList

namespace detail

/-- A resolved implementer of the capability interface: either the stub or a
registered backend instance, tagged by an identity so that distinct instances
are observably distinct. -/
inductive HooksImpl where
  | stub : HooksImpl
  | backend : Nat → HooksImpl
deriving DecidableEq

/-- The process-wide static storage of the accessor: the cached singleton
handle, empty before first use. -/
structure AccessorState where
  cached : Option HooksImpl
deriving DecidableEq

/-- Modelled from the spec: the definition of detail::getCUDAHooks is in a
translation unit outside this header, which only declares it (line 163). Per
the spec (section 4.3), on first call the accessor asks the registry
CreateByName with the one expected backend name; a NotFound outcome (here
Option.none) is consumed internally and the stub implementer is stored
instead; the resolved handle is cached and returned, and later calls return
the cached handle. The registry is a name-keyed factory lookup. -/
def getCUDAHooks (reg : String → Option HooksImpl) (s : AccessorState) :
    HooksImpl × AccessorState :=
  match s.cached with
  | some h => (h, s)
  | none =>
    match reg "CUDAHooks" with
    | some b => (b, { cached := some b })
    | none => (HooksImpl.stub, { cached := some HooksImpl.stub })

/-- The accessor instrumented with the number of registry lookups performed
during the call. -/
def getCUDAHooksCounted (reg : String → Option HooksImpl) (s : AccessorState) :
    HooksImpl × AccessorState × Nat :=
  match s.cached with
  | some h => (h, s, 0)
  | none =>
    match reg "CUDAHooks" with
    | some b => (b, { cached := some b }, 1)
    | none => (HooksImpl.stub, { cached := some HooksImpl.stub }, 1)

/-- The handles returned by n sequential single-threaded accessor calls. -/
def callResults (reg : String → Option HooksImpl) : AccessorState → Nat → List HooksImpl
  | _, 0 => []
  | s, n + 1 =>
    (getCUDAHooks reg s).1 :: callResults reg (getCUDAHooks reg s).2 n

/-- The total number of registry lookups performed by n sequential
single-threaded accessor calls. -/
def totalLookups (reg : String → Option HooksImpl) : AccessorState → Nat → Nat
  | _, 0 => 0
  | s, n + 1 =>
    (getCUDAHooksCounted reg s).2.2 + totalLookups reg (getCUDAHooksCounted reg s).2.1 n

/-- Observable device-side world used to give the fast-path slots a meaning:
the active device index plus a log of the set-device calls a test backend
records. -/
structure CudaWorld where
  currentDevice : Int
  setCalls : List Int
deriving DecidableEq

/-- Modelled from the spec: the static members of detail::DynamicCUDAInterface
are declared in the header (lines 171-175) but defined elsewhere; per the
header comment (lines 165-170) and the spec (section 4.4) they are raw
function-pointer slots that first default to no-ops and are rebound to the
real CUDA functions when the GPU library is loaded. A slot value of
Option.none models a null function pointer. -/
structure DynamicCUDAInterface where
  set_device : Option (Int → CudaWorld → Except String CudaWorld)
  get_device : Option (Int → CudaWorld → Except String (Int × CudaWorld))
  unchecked_set_device : Option (Int → CudaWorld → Except String CudaWorld)

/-- Modelled from the spec: the initial slot bindings are no-ops that do not
raise and do not change observable state; the default get_device leaves its
out-parameter unchanged. -/
def initialDynamicCUDAInterface : DynamicCUDAInterface where
  set_device := some fun _ w => Except.ok w
  get_device := some fun x w => Except.ok (x, w)
  unchecked_set_device := some fun _ w => Except.ok w

/-- The real functions a backend supplies for the three slots. -/
structure BackendSlots where
  set_device : Int → CudaWorld → Except String CudaWorld
  get_device : Int → CudaWorld → Except String (Int × CudaWorld)
  unchecked_set_device : Int → CudaWorld → Except String CudaWorld

/-- Modelled from the spec: at backend load time the backend assigns its real
function pointers into the three process-wide slots. -/
def rebindSlots (b : BackendSlots) (_s : DynamicCUDAInterface) : DynamicCUDAInterface where
  set_device := some b.set_device
  get_device := some b.get_device
  unchecked_set_device := some b.unchecked_set_device

/-- Invoking the set_device slot: calls through the function pointer; a null
pointer has no defined behavior, modelled as Option.none. -/
def invokeSetDevice (s : DynamicCUDAInterface) (d : Int) (w : CudaWorld) :
    Option (Except String CudaWorld) :=
  match s.set_device with
  | some f => some (f d w)
  | none => none

/-- A test backend whose set-device functions record the call with the given
index and make that index the active device. -/
def testBackendSlots : BackendSlots where
  set_device := fun d w => Except.ok { currentDevice := d, setCalls := w.setCalls ++ [d] }
  get_device := fun _ w => Except.ok (w.currentDevice, w)
  unchecked_set_device := fun d w => Except.ok { currentDevice := d, setCalls := w.setCalls ++ [d] }

/-- The slot states reachable during a process lifetime: the default-initialized
state, followed by any number of backend rebinds. -/
inductive ReachableDyn : DynamicCUDAInterface → Prop where
  | init : ReachableDyn initialDynamicCUDAInterface
  | rebind (b : BackendSlots) (s : DynamicCUDAInterface) :
      ReachableDyn s → ReachableDyn (rebindSlots b s)

end detail

/-- C1: every capability-query operation of the stub implementer (hasCUDA,
hasCuDNN, compiledWithCuDNN, supportsDilatedConvolutionWithCuDNN, getNumGPUs,
current_device) returns its documented safe default -- false for the boolean
queries, 0 for getNumGPUs, -1 for current_device -- in every process state,
never raises, and leaves the state unchanged. -/
theorem stub_capability_queries_return_safe_defaults {σ : Type} (s : σ) :
    CUDAHooksInterface.hasCUDA s = (Except.ok false, s) ∧
    CUDAHooksInterface.hasCuDNN s = (Except.ok false, s) ∧
    CUDAHooksInterface.compiledWithCuDNN s = (Except.ok false, s) ∧
    CUDAHooksInterface.supportsDilatedConvolutionWithCuDNN s = (Except.ok false, s) ∧
    CUDAHooksInterface.getNumGPUs s = (Except.ok 0, s) ∧
    CUDAHooksInterface.current_device s = (Except.ok (-1), s) :=
  ⟨rfl, rfl, rfl, rfl, rfl, rfl⟩

/-- C2, counterexample: the claim that every action operation raises an error
whose message names that exact operation is false at
getCurrentCUDAStreamOnDevice: its message is the string
"cannot getCurrentCUDAStream() without ATen_cuda library", which does not
contain the operation name getCurrentCUDAStreamOnDevice (it names the distinct
operation getCurrentCUDAStream instead). -/
theorem stream_on_device_message_lacks_operation_name :
    (CUDAHooksInterface.getCurrentCUDAStreamOnDevice THCState.mk 0 ()).1 =
      Except.error "cannot getCurrentCUDAStream() without ATen_cuda library" ∧
    strContains "cannot getCurrentCUDAStream() without ATen_cuda library"
      "getCurrentCUDAStreamOnDevice" = false :=
  ⟨rfl, by decide⟩

/-- C2, amended: every action-performing operation of the stub implementer
raises a backend-unavailable error in every process state, with the exact
message written in the source; the message names the missing CUDA capability,
but not always the exact operation: getCurrentCUDAStreamOnDevice reuses the
getCurrentCUDAStream() message, and initCUDA, initCUDAGenerator and
newPinnedMemoryAllocator describe the capability in words rather than by the
function name. -/
theorem stub_action_operations_raise {σ : Type} (s : σ) (c : Context)
    (st : THCState) (d : Int) :
    CUDAHooksInterface.initCUDA s =
      (Except.error "cannot initialize CUDA without ATen_cuda library", s) ∧
    CUDAHooksInterface.initCUDAGenerator c s =
      (Except.error "cannot initialize CUDA generator without ATen_cuda library", s) ∧
    CUDAHooksInterface.getCurrentCUDAStream st s =
      (Except.error "cannot getCurrentCUDAStream() without ATen_cuda library", s) ∧
    CUDAHooksInterface.getCurrentCUDASparseHandle st s =
      (Except.error "cannot getCurrentCUDASparseHandle() without ATen_cuda library", s) ∧
    CUDAHooksInterface.getCurrentCUDAStreamOnDevice st d s =
      (Except.error "cannot getCurrentCUDAStream() without ATen_cuda library", s) ∧
    CUDAHooksInterface.getCurrentDeviceProperties st s =
      (Except.error "cannot getCurrentDeviceProperties() without ATen_cuda library", s) ∧
    CUDAHooksInterface.getDeviceProperties st d s =
      (Except.error "cannot getDeviceProperties() without ATen_cuda library", s) ∧
    CUDAHooksInterface.newPinnedMemoryAllocator s =
      (Except.error "pinned memory requires CUDA", s) ∧
    CUDAHooksInterface.registerCUDATypes c s =
      (Except.error "cannot registerCUDATypes() without ATen_cuda library", s) :=
  ⟨rfl, rfl, rfl, rfl, rfl, rfl, rfl, rfl, rfl⟩

/-- C9: the numeric and version feature queries versionCuDNN and
batchnormMinEpsilonCuDNN and all four cuFFT plan-cache operations, including
the read-only getters cuFFTGetPlanCacheMaxSize and cuFFTGetPlanCacheSize,
raise a backend-unavailable error on the stub implementer rather than
returning a safe default value. -/
theorem stub_numeric_queries_raise {σ : Type} (s : σ) (sz : Int) :
    CUDAHooksInterface.versionCuDNN s =
      (Except.error "cannot query cuDNN version without ATen_cuda library", s) ∧
    CUDAHooksInterface.batchnormMinEpsilonCuDNN s =
      (Except.error "cannot query batchnormMinEpsilonCuDNN() without ATen_cuda library", s) ∧
    CUDAHooksInterface.cuFFTGetPlanCacheMaxSize s =
      (Except.error "cannot access cuFFT plan cache without ATen_cuda library", s) ∧
    CUDAHooksInterface.cuFFTSetPlanCacheMaxSize sz s =
      (Except.error "cannot access cuFFT plan cache without ATen_cuda library", s) ∧
    CUDAHooksInterface.cuFFTGetPlanCacheSize s =
      (Except.error "cannot access cuFFT plan cache without ATen_cuda library", s) ∧
    CUDAHooksInterface.cuFFTClearPlanCache s =
      (Except.error "cannot access cuFFT plan cache without ATen_cuda library", s) :=
  ⟨rfl, rfl, rfl, rfl, rfl, rfl⟩

/-- C8: every operation of the stub implementer has zero observable side
effects: whether it returns a default value or raises, the process state after
the call equals the state before it, for every operation and every state. -/
theorem stub_operations_have_no_side_effects {σ : Type} (s : σ) (c : Context)
    (st : THCState) (d : Int) (sz : Int) :
    (CUDAHooksInterface.initCUDA s).2 = s ∧
    (CUDAHooksInterface.initCUDAGenerator c s).2 = s ∧
    (CUDAHooksInterface.hasCUDA s).2 = s ∧
    (CUDAHooksInterface.hasCuDNN s).2 = s ∧
    (CUDAHooksInterface.getCurrentCUDAStream st s).2 = s ∧
    (CUDAHooksInterface.getCurrentCUDASparseHandle st s).2 = s ∧
    (CUDAHooksInterface.getCurrentCUDAStreamOnDevice st d s).2 = s ∧
    (CUDAHooksInterface.getCurrentDeviceProperties st s).2 = s ∧
    (CUDAHooksInterface.getDeviceProperties st d s).2 = s ∧
    (CUDAHooksInterface.current_device s).2 = s ∧
    (CUDAHooksInterface.newPinnedMemoryAllocator s).2 = s ∧
    (CUDAHooksInterface.registerCUDATypes c s).2 = s ∧
    (CUDAHooksInterface.compiledWithCuDNN s).2 = s ∧
    (CUDAHooksInterface.supportsDilatedConvolutionWithCuDNN s).2 = s ∧
    (CUDAHooksInterface.versionCuDNN s).2 = s ∧
    (CUDAHooksInterface.batchnormMinEpsilonCuDNN s).2 = s ∧
    (CUDAHooksInterface.cuFFTGetPlanCacheMaxSize s).2 = s ∧
    (CUDAHooksInterface.cuFFTSetPlanCacheMaxSize sz s).2 = s ∧
    (CUDAHooksInterface.cuFFTGetPlanCacheSize s).2 = s ∧
    (CUDAHooksInterface.cuFFTClearPlanCache s).2 = s ∧
    (CUDAHooksInterface.getNumGPUs s).2 = s :=
  ⟨rfl, rfl, rfl, rfl, rfl, rfl, rfl, rfl, rfl, rfl, rfl, rfl, rfl, rfl, rfl,
   rfl, rfl, rfl, rfl, rfl, rfl⟩

/-- C10: every operation of the stub implementer is deterministic: with equal
arguments, the outcome (returned value or raised error, with its message) is
identical across any two calls, even from different process states over
different state types. -/
theorem stub_operations_deterministic {σ τ : Type} (s : σ) (t : τ) (c : Context)
    (st : THCState) (d : Int) (sz : Int) :
    (CUDAHooksInterface.initCUDA s).1 = (CUDAHooksInterface.initCUDA t).1 ∧
    (CUDAHooksInterface.initCUDAGenerator c s).1 = (CUDAHooksInterface.initCUDAGenerator c t).1 ∧
    (CUDAHooksInterface.hasCUDA s).1 = (CUDAHooksInterface.hasCUDA t).1 ∧
    (CUDAHooksInterface.hasCuDNN s).1 = (CUDAHooksInterface.hasCuDNN t).1 ∧
    (CUDAHooksInterface.getCurrentCUDAStream st s).1 =
      (CUDAHooksInterface.getCurrentCUDAStream st t).1 ∧
    (CUDAHooksInterface.getCurrentCUDASparseHandle st s).1 =
      (CUDAHooksInterface.getCurrentCUDASparseHandle st t).1 ∧
    (CUDAHooksInterface.getCurrentCUDAStreamOnDevice st d s).1 =
      (CUDAHooksInterface.getCurrentCUDAStreamOnDevice st d t).1 ∧
    (CUDAHooksInterface.getCurrentDeviceProperties st s).1 =
      (CUDAHooksInterface.getCurrentDeviceProperties st t).1 ∧
    (CUDAHooksInterface.getDeviceProperties st d s).1 =
      (CUDAHooksInterface.getDeviceProperties st d t).1 ∧
    (CUDAHooksInterface.current_device s).1 = (CUDAHooksInterface.current_device t).1 ∧
    (CUDAHooksInterface.newPinnedMemoryAllocator s).1 =
      (CUDAHooksInterface.newPinnedMemoryAllocator t).1 ∧
    (CUDAHooksInterface.registerCUDATypes c s).1 =
      (CUDAHooksInterface.registerCUDATypes c t).1 ∧
    (CUDAHooksInterface.compiledWithCuDNN s).1 = (CUDAHooksInterface.compiledWithCuDNN t).1 ∧
    (CUDAHooksInterface.supportsDilatedConvolutionWithCuDNN s).1 =
      (CUDAHooksInterface.supportsDilatedConvolutionWithCuDNN t).1 ∧
    (CUDAHooksInterface.versionCuDNN s).1 = (CUDAHooksInterface.versionCuDNN t).1 ∧
    (CUDAHooksInterface.batchnormMinEpsilonCuDNN s).1 =
      (CUDAHooksInterface.batchnormMinEpsilonCuDNN t).1 ∧
    (CUDAHooksInterface.cuFFTGetPlanCacheMaxSize s).1 =
      (CUDAHooksInterface.cuFFTGetPlanCacheMaxSize t).1 ∧
    (CUDAHooksInterface.cuFFTSetPlanCacheMaxSize sz s).1 =
      (CUDAHooksInterface.cuFFTSetPlanCacheMaxSize sz t).1 ∧
    (CUDAHooksInterface.cuFFTGetPlanCacheSize s).1 =
      (CUDAHooksInterface.cuFFTGetPlanCacheSize t).1 ∧
    (CUDAHooksInterface.cuFFTClearPlanCache s).1 =
      (CUDAHooksInterface.cuFFTClearPlanCache t).1 ∧
    (CUDAHooksInterface.getNumGPUs s).1 = (CUDAHooksInterface.getNumGPUs t).1 :=
  ⟨rfl, rfl, rfl, rfl, rfl, rfl, rfl, rfl, rfl, rfl, rfl, rfl, rfl, rfl, rfl,
   rfl, rfl, rfl, rfl, rfl, rfl⟩

namespace detail

/-- Helper: a call with a cached handle returns it and leaves the state alone. -/
theorem getCUDAHooks_cached_eq (reg : String → Option HooksImpl)
    (s : AccessorState) (h : HooksImpl) (hc : s.cached = some h) :
    getCUDAHooks reg s = (h, s) := by
  unfold getCUDAHooks
  rw [hc]

/-- Helper: the counted accessor with a cached handle performs no lookup. -/
theorem getCUDAHooksCounted_cached_eq (reg : String → Option HooksImpl)
    (s : AccessorState) (h : HooksImpl) (hc : s.cached = some h) :
    getCUDAHooksCounted reg s = (h, s, 0) := by
  unfold getCUDAHooksCounted
  rw [hc]

/-- Helper: after any accessor call the returned handle is the cached one. -/
theorem getCUDAHooks_result_cached (reg : String → Option HooksImpl)
    (s : AccessorState) :
    (getCUDAHooks reg s).2.cached = some (getCUDAHooks reg s).1 := by
  unfold getCUDAHooks
  cases hc : s.cached with
  | some h => exact hc
  | none =>
    cases hr : reg "CUDAHooks" with
    | some b => rfl
    | none => rfl

/-- Helper: once a handle is cached, every later call returns that handle. -/
theorem callResults_cached (reg : String → Option HooksImpl)
    (s : AccessorState) (h : HooksImpl) (hc : s.cached = some h) (n : Nat) :
    callResults reg s n = List.replicate n h := by
  induction n with
  | zero => rfl
  | succ k ih =>
    have h1 : getCUDAHooks reg s = (h, s) := getCUDAHooks_cached_eq reg s h hc
    simp only [callResults, h1, List.replicate_succ]
    rw [ih]

/-- Helper: once a handle is cached, no further registry lookups happen. -/
theorem totalLookups_cached (reg : String → Option HooksImpl)
    (s : AccessorState) (h : HooksImpl) (hc : s.cached = some h) (n : Nat) :
    totalLookups reg s n = 0 := by
  induction n with
  | zero => rfl
  | succ k ih =>
    have h1 : getCUDAHooksCounted reg s = (h, s, 0) :=
      getCUDAHooksCounted_cached_eq reg s h hc
    simp only [totalLookups, h1]
    simpa using ih

/-- Helper: the counted accessor returns the same handle and state as the
plain accessor, and performs exactly one lookup on a cold cache. -/
theorem getCUDAHooksCounted_agrees (reg : String → Option HooksImpl)
    (s : AccessorState) :
    (getCUDAHooksCounted reg s).1 = (getCUDAHooks reg s).1 ∧
    (getCUDAHooksCounted reg s).2.1 = (getCUDAHooks reg s).2 ∧
    (s.cached = none → (getCUDAHooksCounted reg s).2.2 = 1) := by
  unfold getCUDAHooks getCUDAHooksCounted
  cases hc : s.cached with
  | some h => exact ⟨rfl, rfl, by intro hn; cases hn⟩
  | none =>
    cases hr : reg "CUDAHooks" with
    | some b => exact ⟨rfl, rfl, fun _ => rfl⟩
    | none => exact ⟨rfl, rfl, fun _ => rfl⟩

/-- C3: the Lazy Singleton Accessor never fails: the registry NotFound outcome
(no factory under the expected name) is consumed internally, the accessor
returns the stub implementer as a valid handle and caches it; in every state
the returned handle is exactly the cached one. -/
theorem getCUDAHooks_never_fails (reg : String → Option HooksImpl)
    (s : AccessorState) (hc : s.cached = none) (hr : reg "CUDAHooks" = none) :
    getCUDAHooks reg s = (HooksImpl.stub, { cached := some HooksImpl.stub }) ∧
    (getCUDAHooks reg s).2.cached = some (getCUDAHooks reg s).1 := by
  have h1 : getCUDAHooks reg s = (HooksImpl.stub, { cached := some HooksImpl.stub }) := by
    unfold getCUDAHooks
    rw [hc, hr]
  exact ⟨h1, getCUDAHooks_result_cached reg s⟩

/-- C3 witness: concrete empty registry and cold cache. -/
theorem getCUDAHooks_never_fails_witness :
    getCUDAHooks (fun _ => none) { cached := none } =
      (HooksImpl.stub, { cached := some HooksImpl.stub }) ∧
    (getCUDAHooks (fun _ => none) { cached := none }).2.cached =
      some (getCUDAHooks (fun _ => none) { cached := none }).1 :=
  getCUDAHooks_never_fails (fun _ => none) { cached := none } rfl rfl

/-- C4: the Singleton Accessor is idempotent: starting from a cold cache,
every handle among the results of n+1 sequential single-threaded calls equals
the handle of the first call, and exactly one registry lookup is performed in
total (none after the first call). -/
theorem getCUDAHooks_idempotent (reg : String → Option HooksImpl)
    (s : AccessorState) (n : Nat) (h : HooksImpl) (hc : s.cached = none)
    (hm : h ∈ callResults reg s (n + 1)) :
    h = (getCUDAHooks reg s).1 ∧ totalLookups reg s (n + 1) = 1 := by
  have hcache := getCUDAHooks_result_cached reg s
  have hagree := getCUDAHooksCounted_agrees reg s
  constructor
  · have hexp : callResults reg s (n + 1) =
        (getCUDAHooks reg s).1 :: List.replicate n (getCUDAHooks reg s).1 := by
      simp only [callResults]
      rw [callResults_cached reg (getCUDAHooks reg s).2 (getCUDAHooks reg s).1 hcache n]
    rw [hexp] at hm
    rcases List.mem_cons.mp hm with h1 | h2
    · exact h1
    · exact List.eq_of_mem_replicate h2
  · simp only [totalLookups]
    rw [hagree.2.2 hc, hagree.2.1,
      totalLookups_cached reg (getCUDAHooks reg s).2 (getCUDAHooks reg s).1 hcache n]

/-- C4 witness: three calls on a concrete empty registry from a cold cache. -/
theorem getCUDAHooks_idempotent_witness :
    HooksImpl.stub = (getCUDAHooks (fun _ => none) { cached := none }).1 ∧
    totalLookups (fun _ => none) { cached := none } (2 + 1) = 1 :=
  getCUDAHooks_idempotent (fun _ => none) { cached := none } 2 HooksImpl.stub rfl
    (by decide)

/-- C6: invoking the default set_device slot with any device index in any
world is a no-op: it does not raise and returns the world unchanged; after the
test backend rebinds the slots, the same invocation performs the backend
behavior, recording the call and making the index the active device. -/
theorem set_device_default_noop_then_rebound (d : Int) (w : CudaWorld) :
    invokeSetDevice initialDynamicCUDAInterface d w = some (Except.ok w) ∧
    invokeSetDevice (rebindSlots testBackendSlots initialDynamicCUDAInterface) d w =
      some (Except.ok { currentDevice := d, setCalls := w.setCalls ++ [d] }) :=
  ⟨rfl, rfl⟩

/-- C7: in every reachable slot state, from the default initialization through
any sequence of backend rebinds, all three fast-path slots (set_device,
get_device, unchecked_set_device) point to a valid callable and are never
null. -/
theorem fast_path_slots_never_null (s : DynamicCUDAInterface)
    (h : ReachableDyn s) :
    s.set_device ≠ none ∧ s.get_device ≠ none ∧ s.unchecked_set_device ≠ none := by
  induction h with
  | init =>
    refine ⟨?_, ?_, ?_⟩ <;> simp [initialDynamicCUDAInterface]
  | rebind b t ht ih =>
    refine ⟨?_, ?_, ?_⟩ <;> simp [rebindSlots]

/-- C7 witness: the default-initialized slot state is reachable and non-null. -/
theorem fast_path_slots_never_null_witness :
    initialDynamicCUDAInterface.set_device ≠ none ∧
    initialDynamicCUDAInterface.get_device ≠ none ∧
    initialDynamicCUDAInterface.unchecked_set_device ≠ none :=
  fast_path_slots_never_null initialDynamicCUDAInterface ReachableDyn.init

end detail

end ATen
